import Mathlib

/-!
Shallow embedding of the 3D cellular-automaton engine in `src/GameOfLife.ts`
(repository `threedeno`), together with theorems settling the specification
claims about it.

Modelling conventions:
* JavaScript numbers (timestamps in milliseconds, probability draws from
  `Math.random()`, bias values, opacities, world-space coordinates) are
  embedded as `ℚ`; grid cell states are `ℕ` (the source stores `0`/`1`).
* The nested `Record<number, Record<number, Record<number, number>>>` lattices
  are embedded as total functions `ℤ → ℤ → ℤ → _`; the source only ever reads
  or writes keys inside `[0, size)³` (each access is guarded by an explicit
  bounds check), so the value of the function outside that cube plays the role
  of the "absent key" and the embedding mirrors every bounds guard literally.
* Each `Math.random()` call site is purified into an oracle argument: the tick
  consumes at most two draws per cell (the survival/birth draw and the old-age
  draw, in that order), modelled as functions from the cell coordinate to `ℚ`;
  the GOLXR seeding noise consumes three draws per noise seed, modelled as
  `ℕ → Fin 3 → ℚ`, and the LIFE seeding consumes one draw per coordinate,
  modelled as `ℤ → ℤ → ℤ → ℚ`.
* `Date.now()` is passed in as the `now : ℚ` argument (the per-frame entry
  point reads it once per call; `updateGrid` and `addCellsNearSpawner` each
  read it again within the same frame, which the embedding identifies).
* The spawner trajectory `(sin(t·0.001)·0.05, cos(t·0.001·0.7)·0.05,
  sin(t·0.001·0.5)·0.05)` uses transcendental functions not available on `ℚ`;
  `animate` therefore takes the trajectory as a function argument
  `traj : ℚ → ℚ × ℚ × ℚ`.  No claim depends on the particular trajectory.
* `position.distanceTo(spawnerPos) < interactionRadius` is embedded as the
  equivalent square-free comparison `0 < r ∧ distSq < r²` (for a nonnegative
  radius the two agree exactly; the source radius is the constant `0.01`).
-/

namespace ThreeDeno

/-- The `RuleSet` enum of the source (`GOLXR`, `LIFE_5766`, `LIFE_25D`). -/
inductive RuleSet where
  | GOLXR
  | LIFE_5766
  | LIFE_25D
deriving DecidableEq, Repr

/-- The source constant `AUTO_RESEED_ON_EXTINCTION = true`. -/
def AUTO_RESEED_ON_EXTINCTION : Bool := true

/-- The mutable `gameState` record of the source, restricted to the fields the
simulation logic reads or writes (the Three.js mesh objects are rendering
state; of them only the scalar `activeInstances`, which the extinction check
reads, is kept). -/
structure GameState where
  size : ℕ
  grid : ℤ → ℤ → ℤ → ℕ
  nextGrid : ℤ → ℤ → ℤ → ℕ
  cellOpacity : ℤ → ℤ → ℤ → ℚ
  activeInstances : ℕ
  lastUpdate : ℚ
  updateInterval : ℚ
  recentlyAdded : ℤ → ℤ → ℤ → ℚ
  cellMemory : ℚ
  bias : ℚ
  spawnerPosition : ℚ × ℚ × ℚ
  interactionRadius : ℚ
  fadeSpeed : ℚ
  currentRuleSet : RuleSet

/-- The bounds check `0 <= x && x < size && ... && z < size` that guards every
lattice access in the source. -/
def inB (size : ℕ) (x y z : ℤ) : Prop :=
  0 ≤ x ∧ x < (size : ℤ) ∧ 0 ≤ y ∧ y < (size : ℤ) ∧ 0 ≤ z ∧ z < (size : ℤ)

instance inB.instDecidable (size : ℕ) (x y z : ℤ) : Decidable (inB size x y z) := by
  unfold inB; infer_instance

/-- The 26 Moore-neighbourhood offsets: the triple loop
`for dx in -1..1, dy in -1..1, dz in -1..1` with the `continue` on
`(0,0,0)`. -/
def mooreOffsets : List (ℤ × ℤ × ℤ) :=
  (([-1, 0, 1] : List ℤ).flatMap fun dx =>
    (([-1, 0, 1] : List ℤ).flatMap fun dy =>
      (([-1, 0, 1] : List ℤ).map fun dz => (dx, dy, dz)))).filter
    fun d => d ≠ (0, 0, 0)

/-- `countNeighbors(x, y, z)`: sums the stored values of the in-bounds Moore
neighbours (out-of-bounds neighbours contribute nothing). -/
def countNeighbors (s : GameState) (x y z : ℤ) : ℕ :=
  (mooreOffsets.map fun d =>
    if inB s.size (x + d.1) (y + d.2.1) (z + d.2.2) then
      s.grid (x + d.1) (y + d.2.1) (z + d.2.2)
    else 0).sum

/-- `countNeighbors25D(x, y, z)`: the pair `(plane, cross)` counting in-bounds
Moore neighbours whose stored value is exactly `1`, split by whether the
neighbour shares the cell's z-layer (`dz === 0`). -/
def countNeighbors25D (s : GameState) (x y z : ℤ) : ℕ × ℕ :=
  ((mooreOffsets.map fun d =>
      if d.2.2 = 0 ∧ inB s.size (x + d.1) (y + d.2.1) (z + d.2.2) ∧
          s.grid (x + d.1) (y + d.2.1) (z + d.2.2) = 1 then 1
      else 0).sum,
   (mooreOffsets.map fun d =>
      if d.2.2 ≠ 0 ∧ inB s.size (x + d.1) (y + d.2.1) (z + d.2.2) ∧
          s.grid (x + d.1) (y + d.2.1) (z + d.2.2) = 1 then 1
      else 0).sum)

/-- `biasMultiplier = (bias - 0.5) * 2` computed at the top of `updateGrid`. -/
def biasMultiplier (bias : ℚ) : ℚ := (bias - 1/2) * 2

/-- `survivalBias = Math.max(0, Math.min(0.9, biasMultiplier * 0.4))`. -/
def survivalBias (bias : ℚ) : ℚ := max 0 (min (9/10) (biasMultiplier bias * (2/5)))

/-- `birthBias = Math.max(0, Math.min(0.9, biasMultiplier * 0.4))` (the source
computes it from the same formula as `survivalBias`). -/
def birthBias (bias : ℚ) : ℚ := max 0 (min (9/10) (biasMultiplier bias * (2/5)))

/-- The GOLXR survival/birth resolution for one cell (the branch of
`updateGrid` below the age-gate check and above the old-age random death):
`r1` is the cell's `Math.random()` draw. -/
def golxrBase (s : GameState) (r1 : ℚ) (x y z : ℤ) : ℕ :=
  let n := countNeighbors s x y z
  if s.grid x y z = 1 then
    if n = 4 then (if r1 > 1/10 - survivalBias s.bias then 1 else 0)
    else if n = 3 ∨ n = 5 then (if r1 > 2/5 - survivalBias s.bias then 1 else 0)
    else if n > 5 then (if r1 > 99/100 - survivalBias s.bias then 1 else 0)
    else (if r1 > 99/100 - survivalBias s.bias then 1 else 0)
  else
    if n = 4 then (if r1 > 7/10 - birthBias s.bias then 1 else 0)
    else if n = 3 then (if r1 > 19/20 - birthBias s.bias / 2 then 1 else 0)
    else 0

/-- The full GOLXR next state for one cell: the age gate
(`currentTime - lastAddedTime < cellMemory` writes `1` and `continue`s, which
skips the old-age check), otherwise `golxrBase` followed by the old-age random
death (`r2` is the second `Math.random()` draw, consulted only when the
resolved state is `1`). -/
def golxrCellNext (s : GameState) (r1 r2 now : ℚ) (x y z : ℤ) : ℕ :=
  if now - s.recentlyAdded x y z < s.cellMemory then 1
  else
    let base := golxrBase s r1 x y z
    if base = 1 ∧ r2 > 19/20 + survivalBias s.bias then 0 else base

/-- The LIFE_5766 (B6/S567) next state for one cell. -/
def life5766Next (s : GameState) (x y z : ℤ) : ℕ :=
  let n := countNeighbors s x y z
  if s.grid x y z = 1 then
    if 5 ≤ n ∧ n ≤ 7 then 1 else 0
  else
    if n = 6 then 1 else 0

/-- The LIFE_25D next state for one cell (birth: plane = 3 and cross ≤ 1;
survival: plane ∈ {2,3} and cross ≤ 1). -/
def life25dNext (s : GameState) (x y z : ℤ) : ℕ :=
  let pc := countNeighbors25D s x y z
  if s.grid x y z = 1 then
    if (pc.1 = 2 ∨ pc.1 = 3) ∧ pc.2 ≤ 1 then 1 else 0
  else
    if pc.1 = 3 ∧ pc.2 ≤ 1 then 1 else 0

/-- The per-cell body of the `updateGrid` triple loop, dispatching on the
active rule set exactly as the source's `if`/`else if`/`else` chain does
(the `else` branch is GOLXR, the default). -/
def cellNext (s : GameState) (r1 r2 now : ℚ) (x y z : ℤ) : ℕ :=
  if s.currentRuleSet = RuleSet.LIFE_5766 then life5766Next s x y z
  else if s.currentRuleSet = RuleSet.LIFE_25D then life25dNext s x y z
  else golxrCellNext s r1 r2 now x y z

/-- The grid-transition part of `updateGrid`: every in-bounds cell of
`nextGrid` is overwritten with its computed next state (out-of-bounds entries
of the `nextGrid` buffer are never touched), then the two buffers swap. -/
def updateGridCore (s : GameState) (r1 r2 : ℤ → ℤ → ℤ → ℚ) (now : ℚ) : GameState :=
  { s with
    grid := fun x y z =>
      if inB s.size x y z then cellNext s (r1 x y z) (r2 x y z) now x y z
      else s.nextGrid x y z,
    nextGrid := s.grid }

/-- The list of all in-bounds coordinates, in the `x`/`y`/`z` loop order used
throughout the source. -/
def cellList (size : ℕ) : List (ℤ × ℤ × ℤ) :=
  (List.range size).flatMap fun x =>
    (List.range size).flatMap fun y =>
      (List.range size).map fun z => ((x : ℤ), (y : ℤ), (z : ℤ))

/-- The instance count computed by `updateInstancedMesh`: the number of cells
whose opacity exceeds the render threshold `0.01`. -/
def countRenderable (s : GameState) : ℕ :=
  ((cellList s.size).map fun p =>
    if s.cellOpacity p.1 p.2.1 p.2.2 > 1/100 then 1 else 0).sum

/-- The number of live cells of the current grid (the measurement the
specification's extinction condition speaks about). -/
def liveCount (s : GameState) : ℕ :=
  ((cellList s.size).map fun p =>
    if s.grid p.1 p.2.1 p.2.2 = 1 then 1 else 0).sum

/-- The state effect of `updateInstancedMesh`: it rebuilds the render matrices
(pure rendering state, not modelled) and stores the renderable-instance count
in `activeInstances`. -/
def updateInstancedMesh (s : GameState) : GameState :=
  { s with activeInstances := countRenderable s }

/-- One bounds-checked seed write: `grid[x][y][z] = 1` together with
`recentlyAdded[x][y][z] = Date.now()`, silently discarded when the coordinate
is outside the lattice. -/
def setCell (size : ℕ) (now : ℚ) (p : ℤ × ℤ × ℤ)
    (ga : (ℤ → ℤ → ℤ → ℕ) × (ℤ → ℤ → ℤ → ℚ)) :
    (ℤ → ℤ → ℤ → ℕ) × (ℤ → ℤ → ℤ → ℚ) :=
  if inB size p.1 p.2.1 p.2.2 then
    (fun a b c => if (a, b, c) = p then 1 else ga.1 a b c,
     fun a b c => if (a, b, c) = p then now else ga.2 a b c)
  else ga

/-- The fixed 7-cell cross the GOLXR seeding always places around the grid
centre. -/
def golxrFixedSeeds : List (ℤ × ℤ × ℤ) :=
  [(0, 0, 0), (1, 0, 0), (-1, 0, 0), (0, 1, 0), (0, -1, 0), (0, 0, 1), (0, 0, -1)]

/-- The 50 random noise offsets of the GOLXR seeding: each coordinate is
`Math.floor(Math.random() * 10) - 5`. -/
def golxrNoiseSeeds (nr : ℕ → Fin 3 → ℚ) : List (ℤ × ℤ × ℤ) :=
  (List.range 50).map fun i =>
    (⌊nr i 0 * 10⌋ - 5, ⌊nr i 1 * 10⌋ - 5, ⌊nr i 2 * 10⌋ - 5)

/-- The closed integer interval `[lo, hi]` as a list (empty when `hi < lo`),
embedding a `for (let v = lo; v <= hi; v++)` loop. -/
def intRangeList (lo hi : ℤ) : List ℤ :=
  (List.range (hi + 1 - lo).toNat).map fun i => lo + (i : ℤ)

/-- The centred sub-cube `[center - range, center + range]³` swept by the
LIFE_5766 / LIFE_25D seeding loops. -/
def seedCube (center range : ℤ) : List (ℤ × ℤ × ℤ) :=
  (intRangeList (center - range) (center + range)).flatMap fun x =>
    (intRangeList (center - range) (center + range)).flatMap fun y =>
      (intRangeList (center - range) (center + range)).map fun z => (x, y, z)

/-- The Bernoulli fill of the centred sub-cube of half-width
`Math.floor(size / 2) - 2` used by the LIFE_5766 (density 20%) and LIFE_25D
(density 30%) seedings; `sr` supplies the per-coordinate `Math.random()`
draw. -/
def seedLifeCube (s : GameState) (density : ℚ) (sr : ℤ → ℤ → ℤ → ℚ)
    (now : ℚ) : GameState :=
  let center : ℤ := (s.size / 2 : ℕ)
  let range : ℤ := ((s.size / 2 : ℕ) : ℤ) - 2
  let ga := (seedCube center range).foldl
    (fun ga p => if sr p.1 p.2.1 p.2.2 < density then setCell s.size now p ga else ga)
    (s.grid, s.recentlyAdded)
  { s with grid := ga.1, recentlyAdded := ga.2 }

/-- `seedInitialPattern()`.  LIFE_5766 and LIFE_25D fill the centred sub-cube
at 20% / 30% density; GOLXR (the final branch) writes the fixed 7-cell cross
plus 50 noise offsets, each translated to the grid centre
`Math.floor(size / 2)`, bounds-checked.  Every seeded cell also gets its age
timestamp set to `Date.now()`. -/
def seedInitialPattern (s : GameState) (nr : ℕ → Fin 3 → ℚ)
    (sr : ℤ → ℤ → ℤ → ℚ) (now : ℚ) : GameState :=
  if s.currentRuleSet = RuleSet.LIFE_5766 then seedLifeCube s (1/5) sr now
  else if s.currentRuleSet = RuleSet.LIFE_25D then seedLifeCube s (3/10) sr now
  else
    let center : ℤ := (s.size / 2 : ℕ)
    let seeds := golxrFixedSeeds ++ golxrNoiseSeeds nr
    let ga := seeds.foldl
      (fun ga d => setCell s.size now (center + d.1, center + d.2.1, center + d.2.2) ga)
      (s.grid, s.recentlyAdded)
    { s with grid := ga.1, recentlyAdded := ga.2 }

/-- `updateGrid()`: the whole-lattice transition and buffer swap
(`updateGridCore`), the `updateInstancedMesh()` call, and — when
`AUTO_RESEED_ON_EXTINCTION` holds and the freshly computed `activeInstances`
is zero — `seedInitialPattern()` followed by a second
`updateInstancedMesh()`. -/
def updateGrid (s : GameState) (r1 r2 : ℤ → ℤ → ℤ → ℚ) (nr : ℕ → Fin 3 → ℚ)
    (sr : ℤ → ℤ → ℤ → ℚ) (now : ℚ) : GameState :=
  if AUTO_RESEED_ON_EXTINCTION = true ∧
      (updateInstancedMesh (updateGridCore s r1 r2 now)).activeInstances = 0 then
    updateInstancedMesh
      (seedInitialPattern (updateInstancedMesh (updateGridCore s r1 r2 now)) nr sr now)
  else updateInstancedMesh (updateGridCore s r1 r2 now)

/-- The per-cell body of `updateCellOpacities`: fade in while alive
(`min(1, o + fadeSpeed)` when `o < 1`), fade out while dead
(`max(0, o - fadeSpeed)` when `o > 0`), otherwise leave the value alone. -/
def stepOpacity (isAlive : Bool) (fade op : ℚ) : ℚ :=
  if isAlive then (if op < 1 then min 1 (op + fade) else op)
  else (if 0 < op then max 0 (op - fade) else op)

/-- The `hasChanges` flag of `updateCellOpacities`: some in-bounds cell took a
fade-in or fade-out branch this frame. -/
def opacityChanged (s : GameState) : Prop :=
  ∃ p ∈ cellList s.size,
    (s.grid p.1 p.2.1 p.2.2 = 1 ∧ s.cellOpacity p.1 p.2.1 p.2.2 < 1) ∨
    (s.grid p.1 p.2.1 p.2.2 ≠ 1 ∧ 0 < s.cellOpacity p.1 p.2.1 p.2.2)

instance opacityChanged.instDecidable (s : GameState) : Decidable (opacityChanged s) := by
  unfold opacityChanged; infer_instance

/-- The in-place opacity sweep of `updateCellOpacities()` (every in-bounds
cell steps by `stepOpacity`). -/
def fadeOpacities (s : GameState) : GameState :=
  { s with
    cellOpacity := fun x y z =>
      if inB s.size x y z then
        stepOpacity (decide (s.grid x y z = 1)) s.fadeSpeed (s.cellOpacity x y z)
      else s.cellOpacity x y z }

/-- `updateCellOpacities()`: steps every in-bounds cell's opacity and, when
any cell changed, refreshes the instanced mesh (and with it
`activeInstances`). -/
def updateCellOpacities (s : GameState) : GameState :=
  if opacityChanged s then updateInstancedMesh (fadeOpacities s)
  else fadeOpacities s

/-- The world-space position of a lattice cell: `((x - size/2) * 0.011, ...)`
(note `size / 2` here is the exact float division of the source, not the
floored centre used by the seeding). -/
def cellWorldPos (size : ℕ) (x y z : ℤ) : ℚ × ℚ × ℚ :=
  (((x : ℚ) - (size : ℚ)/2) * (11/1000),
   ((y : ℚ) - (size : ℚ)/2) * (11/1000),
   ((z : ℚ) - (size : ℚ)/2) * (11/1000))

/-- Squared Euclidean distance between two world-space points. -/
def sqDist (p q : ℚ × ℚ × ℚ) : ℚ :=
  (p.1 - q.1)^2 + (p.2.1 - q.2.1)^2 + (p.2.2 - q.2.2)^2

/-- The capture test `position.distanceTo(spawnerPos) < interactionRadius`,
stated squared (exactly equivalent for the source's positive radius). -/
def nearSpawner (s : GameState) (x y z : ℤ) : Prop :=
  0 < s.interactionRadius ∧
  sqDist (cellWorldPos s.size x y z) s.spawnerPosition < s.interactionRadius ^ 2

instance nearSpawner.instDecidable (s : GameState) (x y z : ℤ) :
    Decidable (nearSpawner s x y z) := by
  unfold nearSpawner; infer_instance

/-- The `needsUpdate` flag of `addCellsNearSpawner`: some in-bounds dead cell
lies within the capture radius. -/
def spawnNeedsUpdate (s : GameState) : Prop :=
  ∃ p ∈ cellList s.size, s.grid p.1 p.2.1 p.2.2 = 0 ∧ nearSpawner s p.1 p.2.1 p.2.2

instance spawnNeedsUpdate.instDecidable (s : GameState) : Decidable (spawnNeedsUpdate s) := by
  unfold spawnNeedsUpdate; infer_instance

/-- The in-place mutation of `addCellsNearSpawner()`: every in-bounds cell
that is currently dead (`grid[x][y][z] === 0`) and within the capture radius
is forced alive and has its age timestamp refreshed. -/
def spawnCapture (s : GameState) (now : ℚ) : GameState :=
  { s with
    grid := fun x y z =>
      if inB s.size x y z ∧ s.grid x y z = 0 ∧ nearSpawner s x y z then 1
      else s.grid x y z,
    recentlyAdded := fun x y z =>
      if inB s.size x y z ∧ s.grid x y z = 0 ∧ nearSpawner s x y z then now
      else s.recentlyAdded x y z }

/-- `addCellsNearSpawner()`: the capture sweep, plus the instanced-mesh
refresh when anything changed. -/
def addCellsNearSpawner (s : GameState) (now : ℚ) : GameState :=
  if spawnNeedsUpdate s then updateInstancedMesh (spawnCapture s now)
  else spawnCapture s now

/-- The spawner block at the top of `animate()`: under GOLXR move the spawner
along its trajectory and run the capture scan (every call, before the tick
gate); under the other rules do nothing. -/
def spawnerPhase (s : GameState) (traj : ℚ → ℚ × ℚ × ℚ) (now : ℚ) : GameState :=
  if s.currentRuleSet = RuleSet.GOLXR then
    addCellsNearSpawner { s with spawnerPosition := traj now } now
  else s

/-- The scheduler gate of `animate()`: when
`currentTime - lastUpdate > updateInterval`, run exactly one `updateGrid()`
tick and record `lastUpdate = currentTime`; otherwise do nothing. -/
def tickPhase (s : GameState) (r1 r2 : ℤ → ℤ → ℤ → ℚ) (nr : ℕ → Fin 3 → ℚ)
    (sr : ℤ → ℤ → ℤ → ℚ) (now : ℚ) : GameState :=
  if now - s.lastUpdate > s.updateInterval then
    { updateGrid s r1 r2 nr sr now with lastUpdate := now }
  else s

/-- `animate()`: spawner phase (GOLXR only, every call), then the gated logic
tick, then the unconditional `updateCellOpacities()`.  `traj` is the
closed-form spawner trajectory (see the module docstring). -/
def animate (s : GameState) (traj : ℚ → ℚ × ℚ × ℚ) (r1 r2 : ℤ → ℤ → ℤ → ℚ)
    (nr : ℕ → Fin 3 → ℚ) (sr : ℤ → ℤ → ℤ → ℚ) (now : ℚ) : GameState :=
  updateCellOpacities (tickPhase (spawnerPhase s traj now) r1 r2 nr sr now)

/-- The simulation state as `init()` first builds it: the three lattices
allocated with every cell dead / age 0 / opacity 0, and the scalar fields
carrying the constants of the source's `gameState` literal.  The source fixes
`size = 20` and the rule set by the `CURRENT_RULESET` constant and performs no
validation whatsoever of the configuration; the embedding exposes both as
parameters so that degenerate configurations can be examined. -/
def initState (size : ℕ) (rule : RuleSet) : GameState :=
  { size := size
    grid := fun _ _ _ => 0
    nextGrid := fun _ _ _ => 0
    cellOpacity := fun _ _ _ => 0
    activeInstances := 0
    lastUpdate := 0
    updateInterval := 66
    recentlyAdded := fun _ _ _ => 0
    cellMemory := 700
    bias := 59/100
    spawnerPosition := (0, 0, 0)
    interactionRadius := 1/100
    fadeSpeed := 1/20
    currentRuleSet := rule }

/-- See `initState`; `initModel` is the full `init()` pipeline: fresh lattices,
`seedInitialPattern()`, `updateInstancedMesh()`. -/
def initModel (size : ℕ) (rule : RuleSet) (nr : ℕ → Fin 3 → ℚ)
    (sr : ℤ → ℤ → ℤ → ℚ) (now : ℚ) : GameState :=
  updateInstancedMesh (seedInitialPattern (initState size rule) nr sr now)

/-! ### Concrete example states (used by witnesses and counterexamples) -/

/-- A minimal 1³ lattice in GOLXR mode with everything zeroed and neutral
bias (`survivalBias = birthBias = 0`). -/
def base1 : GameState :=
  { size := 1
    grid := fun _ _ _ => 0
    nextGrid := fun _ _ _ => 0
    cellOpacity := fun _ _ _ => 0
    activeInstances := 0
    lastUpdate := 0
    updateInterval := 66
    recentlyAdded := fun _ _ _ => 0
    cellMemory := 700
    bias := 1/2
    spawnerPosition := (0, 0, 0)
    interactionRadius := 1/100
    fadeSpeed := 1/20
    currentRuleSet := RuleSet.GOLXR }

/-- A 20³ LIFE_5766 state with an all-dead grid in which one cell is still
fading out (opacity 1 at the centre): the generic situation right after the
last live cells died while their visual fade has not finished. -/
def c1s : GameState :=
  { base1 with
    size := 20
    currentRuleSet := RuleSet.LIFE_5766
    cellOpacity := fun a b c => if (a, b, c) = ((10 : ℤ), (10 : ℤ), (10 : ℤ)) then 1 else 0 }

/-- A 1³ LIFE_5766 state whose single cell is alive. -/
def cs5 : GameState :=
  { base1 with currentRuleSet := RuleSet.LIFE_5766, grid := fun _ _ _ => 1 }

/-- A 1³ LIFE_25D state whose single cell is alive. -/
def cs6 : GameState :=
  { base1 with currentRuleSet := RuleSet.LIFE_25D, grid := fun _ _ _ => 1 }

/-- `base1` with its single cell alive. -/
def cs3a : GameState := { base1 with grid := fun _ _ _ => 1 }

/-- `base1` with the age map stamped at 900 ms (inside the memory window at
`now = 1000`). -/
def cs3g : GameState := { base1 with recentlyAdded := fun _ _ _ => 900 }

/-- A spawner trajectory parked at the origin. -/
def traj0 : ℚ → ℚ × ℚ × ℚ := fun _ => (0, 0, 0)

/-- The all-zero tick oracle. -/
def zr : ℤ → ℤ → ℤ → ℚ := fun _ _ _ => 0

/-- The all-zero GOLXR-noise oracle. -/
def zn : ℕ → Fin 3 → ℚ := fun _ _ => 0

/-! ### Helper lemmas -/

/-- A triple is enumerated by `cellList size` exactly when it is in bounds. -/
theorem mem_cellList {size : ℕ} {p : ℤ × ℤ × ℤ} :
    p ∈ cellList size ↔ inB size p.1 p.2.1 p.2.2 := by
  obtain ⟨a, b, c⟩ := p
  unfold inB
  simp [cellList, List.mem_flatMap, List.mem_map, List.mem_range, Prod.mk.injEq]
  constructor
  · rintro ⟨x, hx, y, hy, w, ⟨z, hz, rfl⟩, hxa, hyb, rfl⟩
    omega
  · rintro ⟨h1, h2, h3, h4, h5, h6⟩
    exact ⟨a.toNat, by omega, b.toNat, by omega, c,
      ⟨c.toNat, by omega, by omega⟩, by omega, by omega, rfl⟩

/-- `liveCount` vanishes exactly when no in-bounds cell is alive. -/
theorem liveCount_eq_zero_iff {s : GameState} :
    liveCount s = 0 ↔ ∀ p ∈ cellList s.size, s.grid p.1 p.2.1 p.2.2 ≠ 1 := by
  unfold liveCount
  rw [List.sum_eq_zero_iff]
  constructor
  · intro h p hp hg
    have h1 := h 1 (List.mem_map.mpr ⟨p, hp, by rw [if_pos hg]⟩)
    omega
  · intro h q hq
    obtain ⟨p, hp, rfl⟩ := List.mem_map.mp hq
    rw [if_neg (h p hp)]

/-- A single in-bounds cell above the render threshold makes
`countRenderable` positive. -/
theorem countRenderable_ne_zero {s : GameState} {p : ℤ × ℤ × ℤ}
    (hp : p ∈ cellList s.size) (ho : s.cellOpacity p.1 p.2.1 p.2.2 > 1/100) :
    countRenderable s ≠ 0 := by
  unfold countRenderable
  rw [Ne, List.sum_eq_zero_iff]
  intro h
  have h1 := h 1 (List.mem_map.mpr ⟨p, hp, by rw [if_pos ho]⟩)
  omega

/-- With all opacities at zero nothing is renderable. -/
theorem countRenderable_eq_zero {s : GameState}
    (h : ∀ a b c, s.cellOpacity a b c = 0) : countRenderable s = 0 := by
  unfold countRenderable
  apply List.sum_eq_zero
  intro q hq
  obtain ⟨p, hp, rfl⟩ := List.mem_map.mp hq
  have hno : ¬ (s.cellOpacity p.1 p.2.1 p.2.2 > 1/100) := by rw [h]; norm_num
  rw [if_neg hno]

/-- On an all-dead grid every neighbour count is zero. -/
theorem countNeighbors_eq_zero {s : GameState}
    (h : ∀ a b c, s.grid a b c = 0) (x y z : ℤ) :
    countNeighbors s x y z = 0 := by
  unfold countNeighbors
  apply List.sum_eq_zero
  intro q hq
  obtain ⟨d, hd, rfl⟩ := List.mem_map.mp hq
  split
  · exact h _ _ _
  · rfl

/-- `setCell` never turns a live cell dead. -/
theorem setCell_preserves_one {size : ℕ} {now : ℚ} {p : ℤ × ℤ × ℤ}
    {ga : (ℤ → ℤ → ℤ → ℕ) × (ℤ → ℤ → ℤ → ℚ)} {x y z : ℤ}
    (h : ga.1 x y z = 1) : (setCell size now p ga).1 x y z = 1 := by
  unfold setCell
  split
  · dsimp only
    split
    · rfl
    · exact h
  · exact h

/-- `setCell` at an in-bounds target makes that cell live. -/
theorem setCell_sets {size : ℕ} {now : ℚ} {p : ℤ × ℤ × ℤ}
    {ga : (ℤ → ℤ → ℤ → ℕ) × (ℤ → ℤ → ℤ → ℚ)}
    (h : inB size p.1 p.2.1 p.2.2) :
    (setCell size now p ga).1 p.1 p.2.1 p.2.2 = 1 := by
  obtain ⟨a, b, c⟩ := p
  unfold setCell
  rw [if_pos h]
  simp

/-- A fold whose every step preserves live cells preserves live cells. -/
theorem foldl_preserves_one {α : Type}
    {step : (ℤ → ℤ → ℤ → ℕ) × (ℤ → ℤ → ℤ → ℚ) → α → (ℤ → ℤ → ℤ → ℕ) × (ℤ → ℤ → ℤ → ℚ)}
    {x y z : ℤ}
    (hstep : ∀ ga e, ga.1 x y z = 1 → (step ga e).1 x y z = 1) :
    ∀ (l : List α) ga, ga.1 x y z = 1 → (l.foldl step ga).1 x y z = 1 := by
  intro l
  induction l with
  | nil => intro ga h; exact h
  | cons a t ih => intro ga h; exact ih _ (hstep ga a h)

/-- `setCell` touches no cell other than its target. -/
theorem setCell_other {size : ℕ} {now : ℚ} {p : ℤ × ℤ × ℤ}
    {ga : (ℤ → ℤ → ℤ → ℕ) × (ℤ → ℤ → ℤ → ℚ)} {x y z : ℤ}
    (h : (x, y, z) ≠ p) :
    (setCell size now p ga).1 x y z = ga.1 x y z ∧
      (setCell size now p ga).2 x y z = ga.2 x y z := by
  unfold setCell
  split
  · exact ⟨by dsimp only; rw [if_neg h], by dsimp only; rw [if_neg h]⟩
  · exact ⟨rfl, rfl⟩

/-- `setCell` leaves every out-of-bounds cell alone (its target is
bounds-checked). -/
theorem setCell_outside {size : ℕ} {now : ℚ} {p : ℤ × ℤ × ℤ}
    {ga : (ℤ → ℤ → ℤ → ℕ) × (ℤ → ℤ → ℤ → ℚ)} {x y z : ℤ}
    (hout : ¬ inB size x y z) :
    (setCell size now p ga).1 x y z = ga.1 x y z ∧
      (setCell size now p ga).2 x y z = ga.2 x y z := by
  unfold setCell
  split
  · rename_i hp
    constructor <;>
      · dsimp only
        rw [if_neg]
        rintro rfl
        exact hout hp
  · exact ⟨rfl, rfl⟩

/-- A fold whose every step leaves a given cell alone leaves that cell
alone. -/
theorem foldl_preserves_point {α : Type}
    {step : (ℤ → ℤ → ℤ → ℕ) × (ℤ → ℤ → ℤ → ℚ) → α →
      (ℤ → ℤ → ℤ → ℕ) × (ℤ → ℤ → ℤ → ℚ)} {x y z : ℤ}
    (hstep : ∀ ga e, (step ga e).1 x y z = ga.1 x y z ∧
      (step ga e).2 x y z = ga.2 x y z) :
    ∀ (l : List α) ga, (l.foldl step ga).1 x y z = ga.1 x y z ∧
      (l.foldl step ga).2 x y z = ga.2 x y z := by
  intro l
  induction l with
  | nil => intro ga; exact ⟨rfl, rfl⟩
  | cons a t ih =>
    intro ga
    refine ⟨?_, ?_⟩
    · rw [List.foldl_cons, (ih (step ga a)).1, (hstep ga a).1]
    · rw [List.foldl_cons, (ih (step ga a)).2, (hstep ga a).2]

/-- Projection facts for `updateInstancedMesh` (it only writes
`activeInstances`). -/
theorem updateInstancedMesh_grid (t : GameState) :
    (updateInstancedMesh t).grid = t.grid := rfl

theorem updateInstancedMesh_size (t : GameState) :
    (updateInstancedMesh t).size = t.size := rfl

theorem updateInstancedMesh_cellOpacity (t : GameState) :
    (updateInstancedMesh t).cellOpacity = t.cellOpacity := rfl

theorem updateInstancedMesh_recentlyAdded (t : GameState) :
    (updateInstancedMesh t).recentlyAdded = t.recentlyAdded := rfl

theorem updateInstancedMesh_currentRuleSet (t : GameState) :
    (updateInstancedMesh t).currentRuleSet = t.currentRuleSet := rfl

theorem updateInstancedMesh_activeInstances (t : GameState) :
    (updateInstancedMesh t).activeInstances = countRenderable t := rfl

/-- Projection facts for `updateGridCore` (it only writes the two grid
buffers). -/
theorem updateGridCore_size (s : GameState) (r1 r2 : ℤ → ℤ → ℤ → ℚ) (now : ℚ) :
    (updateGridCore s r1 r2 now).size = s.size := rfl

theorem updateGridCore_cellOpacity (s : GameState) (r1 r2 : ℤ → ℤ → ℤ → ℚ) (now : ℚ) :
    (updateGridCore s r1 r2 now).cellOpacity = s.cellOpacity := rfl

theorem updateGridCore_currentRuleSet (s : GameState) (r1 r2 : ℤ → ℤ → ℤ → ℚ) (now : ℚ) :
    (updateGridCore s r1 r2 now).currentRuleSet = s.currentRuleSet := rfl

theorem updateGridCore_nextGrid (s : GameState) (r1 r2 : ℤ → ℤ → ℤ → ℚ) (now : ℚ) :
    (updateGridCore s r1 r2 now).nextGrid = s.grid := rfl

/-- Seeding never touches an out-of-bounds cell (every write is
bounds-checked). -/
theorem seedInitialPattern_outside (s : GameState) (nr : ℕ → Fin 3 → ℚ)
    (sr : ℤ → ℤ → ℤ → ℚ) (now : ℚ) {x y z : ℤ} (hout : ¬ inB s.size x y z) :
    (seedInitialPattern s nr sr now).grid x y z = s.grid x y z ∧
      (seedInitialPattern s nr sr now).recentlyAdded x y z = s.recentlyAdded x y z := by
  have hlife : ∀ d : ℚ,
      (seedLifeCube s d sr now).grid x y z = s.grid x y z ∧
        (seedLifeCube s d sr now).recentlyAdded x y z = s.recentlyAdded x y z := by
    intro d
    unfold seedLifeCube
    exact foldl_preserves_point
      (fun ga e => by
        split
        · exact setCell_outside hout
        · exact ⟨rfl, rfl⟩)
      _ _
  unfold seedInitialPattern
  split
  · exact hlife _
  · split
    · exact hlife _
    · exact foldl_preserves_point (fun ga e => setCell_outside hout) _ _

/-- The mesh refresh does not change the live-cell count. -/
theorem liveCount_updateInstancedMesh (t : GameState) :
    liveCount (updateInstancedMesh t) = liveCount t := rfl

/-- `life5766Next` with its `neighbors` binding expanded. -/
theorem life5766Next_eq (s : GameState) (x y z : ℤ) :
    life5766Next s x y z =
      if s.grid x y z = 1 then
        (if 5 ≤ countNeighbors s x y z ∧ countNeighbors s x y z ≤ 7 then 1 else 0)
      else (if countNeighbors s x y z = 6 then 1 else 0) := rfl

/-- Seeding never changes the lattice size. -/
theorem seedInitialPattern_size (s : GameState) (nr : ℕ → Fin 3 → ℚ)
    (sr : ℤ → ℤ → ℤ → ℚ) (now : ℚ) :
    (seedInitialPattern s nr sr now).size = s.size := by
  unfold seedInitialPattern seedLifeCube
  split
  · rfl
  · split <;> rfl

/-- Seeding never changes the rule set. -/
theorem seedInitialPattern_currentRuleSet (s : GameState) (nr : ℕ → Fin 3 → ℚ)
    (sr : ℤ → ℤ → ℤ → ℚ) (now : ℚ) :
    (seedInitialPattern s nr sr now).currentRuleSet = s.currentRuleSet := by
  unfold seedInitialPattern seedLifeCube
  split
  · rfl
  · split <;> rfl

/-- The GOLXR seeding always leaves the centre cell alive: the first fixed
seed is the centre itself (in bounds whenever the lattice is non-degenerate)
and every later seed write can only turn cells on. -/
theorem golxr_seed_center (t : GameState) (nr : ℕ → Fin 3 → ℚ)
    (sr : ℤ → ℤ → ℤ → ℚ) (now : ℚ)
    (hrule : t.currentRuleSet = RuleSet.GOLXR) (hsize : 1 ≤ t.size) :
    (seedInitialPattern t nr sr now).grid ((t.size / 2 : ℕ) : ℤ)
      ((t.size / 2 : ℕ) : ℤ) ((t.size / 2 : ℕ) : ℤ) = 1 := by
  have hc : inB t.size ((t.size / 2 : ℕ) : ℤ) ((t.size / 2 : ℕ) : ℤ)
      ((t.size / 2 : ℕ) : ℤ) := by
    unfold inB
    omega
  unfold seedInitialPattern
  rw [if_neg (by rw [hrule]; exact nofun), if_neg (by rw [hrule]; exact nofun)]
  show ((golxrFixedSeeds ++ golxrNoiseSeeds nr).foldl
      (fun ga d => setCell t.size now
        (((t.size / 2 : ℕ) : ℤ) + d.1, ((t.size / 2 : ℕ) : ℤ) + d.2.1,
          ((t.size / 2 : ℕ) : ℤ) + d.2.2) ga)
      (t.grid, t.recentlyAdded)).1 _ _ _ = 1
  rw [golxrFixedSeeds, List.cons_append, List.foldl_cons]
  apply foldl_preserves_one (fun ga e h => setCell_preserves_one h)
  simp only [add_zero]
  exact setCell_sets hc

/-- `updateCellOpacities` leaves every field except `cellOpacity` and
`activeInstances` unchanged. -/
theorem updateCellOpacities_fields (s : GameState) :
    (updateCellOpacities s).size = s.size ∧
      (updateCellOpacities s).grid = s.grid ∧
      (updateCellOpacities s).nextGrid = s.nextGrid ∧
      (updateCellOpacities s).recentlyAdded = s.recentlyAdded ∧
      (updateCellOpacities s).fadeSpeed = s.fadeSpeed ∧
      (updateCellOpacities s).lastUpdate = s.lastUpdate ∧
      (updateCellOpacities s).currentRuleSet = s.currentRuleSet := by
  unfold updateCellOpacities updateInstancedMesh
  split <;> exact ⟨rfl, rfl, rfl, rfl, rfl, rfl, rfl⟩

/-- `addCellsNearSpawner` leaves every field except `grid`, `recentlyAdded`
and `activeInstances` unchanged. -/
theorem addCellsNearSpawner_fields (s : GameState) (now : ℚ) :
    (addCellsNearSpawner s now).size = s.size ∧
      (addCellsNearSpawner s now).nextGrid = s.nextGrid ∧
      (addCellsNearSpawner s now).lastUpdate = s.lastUpdate ∧
      (addCellsNearSpawner s now).updateInterval = s.updateInterval ∧
      (addCellsNearSpawner s now).cellOpacity = s.cellOpacity ∧
      (addCellsNearSpawner s now).currentRuleSet = s.currentRuleSet := by
  unfold addCellsNearSpawner
  split <;> exact ⟨rfl, rfl, rfl, rfl, rfl, rfl⟩

/-- The spawner phase leaves the scratch buffer and the scheduler state
unchanged (under either rule set). -/
theorem spawnerPhase_fields (s : GameState) (traj : ℚ → ℚ × ℚ × ℚ) (now : ℚ) :
    (spawnerPhase s traj now).nextGrid = s.nextGrid ∧
      (spawnerPhase s traj now).lastUpdate = s.lastUpdate ∧
      (spawnerPhase s traj now).updateInterval = s.updateInterval := by
  unfold spawnerPhase
  split
  · have h := addCellsNearSpawner_fields { s with spawnerPosition := traj now } now
    exact ⟨h.2.1, h.2.2.1, h.2.2.2.1⟩
  · exact ⟨rfl, rfl, rfl⟩

/-- Pointwise description of one `updateCellOpacities` frame. -/
theorem updateCellOpacities_opacity (s : GameState) (x y z : ℤ) :
    (updateCellOpacities s).cellOpacity x y z =
      if inB s.size x y z then
        stepOpacity (decide (s.grid x y z = 1)) s.fadeSpeed (s.cellOpacity x y z)
      else s.cellOpacity x y z := by
  unfold updateCellOpacities updateInstancedMesh
  split <;> rfl

/-- An `if`-indicator equals `1` exactly when its condition holds. -/
theorem ite_one_zero_eq_one {c : Prop} [Decidable c] : (if c then (1 : ℕ) else 0) = 1 ↔ c := by
  split
  · rename_i h; simpa using h
  · rename_i h; simpa using h

/-- A single live in-bounds cell makes `liveCount` positive. -/
theorem liveCount_ne_zero {s : GameState} {p : ℤ × ℤ × ℤ}
    (hp : p ∈ cellList s.size) (hg : s.grid p.1 p.2.1 p.2.2 = 1) :
    liveCount s ≠ 0 := by
  intro h
  exact liveCount_eq_zero_iff.mp h p hp hg

/-! ### Claim theorems -/

/-- C5 (confirmed): under the LIFE_5766 rule the next state of every in-bounds
cell is `1` iff the cell is alive with 26-neighbour Moore count in `[5, 7]` or
dead with count exactly `6`; and the result is unchanged under arbitrary
replacement of the random oracles, the clock, the age map, the memory window
and the bias — no randomness, bias, or age gate is consulted. -/
theorem life5766_next_state (s : GameState) (r1 r2 r1' r2' : ℤ → ℤ → ℤ → ℚ)
    (now now' : ℚ) (age' : ℤ → ℤ → ℤ → ℚ) (mem' b' : ℚ) (x y z : ℤ)
    (hrule : s.currentRuleSet = RuleSet.LIFE_5766) (hin : inB s.size x y z) :
    ((updateGridCore s r1 r2 now).grid x y z =
      if s.grid x y z = 1 then
        (if 5 ≤ countNeighbors s x y z ∧ countNeighbors s x y z ≤ 7 then 1 else 0)
      else (if countNeighbors s x y z = 6 then 1 else 0)) ∧
    (updateGridCore s r1 r2 now).grid x y z =
      (updateGridCore
        { s with recentlyAdded := age', cellMemory := mem', bias := b' }
        r1' r2' now').grid x y z := by
  have hcore : ∀ (R1 R2 : ℤ → ℤ → ℤ → ℚ) (t : ℚ) (A : ℤ → ℤ → ℤ → ℚ) (m b : ℚ),
      (updateGridCore { s with recentlyAdded := A, cellMemory := m, bias := b }
        R1 R2 t).grid x y z =
        if s.grid x y z = 1 then
          (if 5 ≤ countNeighbors s x y z ∧ countNeighbors s x y z ≤ 7 then 1 else 0)
        else (if countNeighbors s x y z = 6 then 1 else 0) := by
    intro R1 R2 t A m b
    show (if inB s.size x y z then _ else _) = _
    rw [if_pos hin]
    show cellNext { s with recentlyAdded := A, cellMemory := m, bias := b }
      (R1 x y z) (R2 x y z) t x y z = _
    unfold cellNext
    rw [if_pos (show ({ s with recentlyAdded := A, cellMemory := m, bias := b } :
      GameState).currentRuleSet = RuleSet.LIFE_5766 from hrule)]
    rfl
  have hself := hcore r1 r2 now s.recentlyAdded s.cellMemory s.bias
  refine ⟨?_, ?_⟩
  · exact hself
  · rw [hself, hcore r1' r2' now' age' mem' b']

/-- C5 witness: the LIFE_5766 characterisation applied at the single cell of
`cs5` (alive, zero neighbours, hence dead next). -/
theorem life5766_next_state_witness :
    ((updateGridCore cs5 zr zr 0).grid 0 0 0 =
      if cs5.grid 0 0 0 = 1 then
        (if 5 ≤ countNeighbors cs5 0 0 0 ∧ countNeighbors cs5 0 0 0 ≤ 7 then 1 else 0)
      else (if countNeighbors cs5 0 0 0 = 6 then 1 else 0)) ∧
    (updateGridCore cs5 zr zr 0).grid 0 0 0 =
      (updateGridCore { cs5 with recentlyAdded := zr, cellMemory := 0, bias := 0 }
        zr zr 1).grid 0 0 0 :=
  life5766_next_state cs5 zr zr zr zr 0 1 zr 0 0 0 0 0 rfl (by decide)

/-- C6 (confirmed): under the LIFE_25D rule the next state of every in-bounds
cell is `1` iff (alive with plane-count 2 or 3 and cross-count ≤ 1) or (dead
with plane-count exactly 3 and cross-count ≤ 1); and the result is unchanged
under arbitrary replacement of the random oracles, the clock, the age map,
the memory window and the bias — the rule is deterministic with no bias or
age gate. -/
theorem life25d_next_state (s : GameState) (r1 r2 r1' r2' : ℤ → ℤ → ℤ → ℚ)
    (now now' : ℚ) (age' : ℤ → ℤ → ℤ → ℚ) (mem' b' : ℚ) (x y z : ℤ)
    (hrule : s.currentRuleSet = RuleSet.LIFE_25D) (hin : inB s.size x y z) :
    ((updateGridCore s r1 r2 now).grid x y z =
      if s.grid x y z = 1 then
        (if ((countNeighbors25D s x y z).1 = 2 ∨ (countNeighbors25D s x y z).1 = 3) ∧
            (countNeighbors25D s x y z).2 ≤ 1 then 1 else 0)
      else
        (if (countNeighbors25D s x y z).1 = 3 ∧ (countNeighbors25D s x y z).2 ≤ 1
          then 1 else 0)) ∧
    (updateGridCore s r1 r2 now).grid x y z =
      (updateGridCore
        { s with recentlyAdded := age', cellMemory := mem', bias := b' }
        r1' r2' now').grid x y z := by
  have hcore : ∀ (R1 R2 : ℤ → ℤ → ℤ → ℚ) (t : ℚ) (A : ℤ → ℤ → ℤ → ℚ) (m b : ℚ),
      (updateGridCore { s with recentlyAdded := A, cellMemory := m, bias := b }
        R1 R2 t).grid x y z =
        if s.grid x y z = 1 then
          (if ((countNeighbors25D s x y z).1 = 2 ∨ (countNeighbors25D s x y z).1 = 3) ∧
              (countNeighbors25D s x y z).2 ≤ 1 then 1 else 0)
        else
          (if (countNeighbors25D s x y z).1 = 3 ∧ (countNeighbors25D s x y z).2 ≤ 1
            then 1 else 0) := by
    intro R1 R2 t A m b
    show (if inB s.size x y z then _ else _) = _
    rw [if_pos hin]
    show cellNext { s with recentlyAdded := A, cellMemory := m, bias := b }
      (R1 x y z) (R2 x y z) t x y z = _
    unfold cellNext
    rw [if_neg (by rw [show ({ s with recentlyAdded := A, cellMemory := m, bias := b } :
        GameState).currentRuleSet = RuleSet.LIFE_25D from hrule]; exact nofun),
      if_pos (show ({ s with recentlyAdded := A, cellMemory := m, bias := b } :
        GameState).currentRuleSet = RuleSet.LIFE_25D from hrule)]
    rfl
  have hself := hcore r1 r2 now s.recentlyAdded s.cellMemory s.bias
  refine ⟨?_, ?_⟩
  · exact hself
  · rw [hself, hcore r1' r2' now' age' mem' b']

/-- C6 witness: the LIFE_25D characterisation applied at the single cell of
`cs6` (alive, zero neighbours, hence dead next). -/
theorem life25d_next_state_witness :
    ((updateGridCore cs6 zr zr 0).grid 0 0 0 =
      if cs6.grid 0 0 0 = 1 then
        (if ((countNeighbors25D cs6 0 0 0).1 = 2 ∨ (countNeighbors25D cs6 0 0 0).1 = 3) ∧
            (countNeighbors25D cs6 0 0 0).2 ≤ 1 then 1 else 0)
      else
        (if (countNeighbors25D cs6 0 0 0).1 = 3 ∧ (countNeighbors25D cs6 0 0 0).2 ≤ 1
          then 1 else 0)) ∧
    (updateGridCore cs6 zr zr 0).grid 0 0 0 =
      (updateGridCore { cs6 with recentlyAdded := zr, cellMemory := 0, bias := 0 }
        zr zr 1).grid 0 0 0 :=
  life25d_next_state cs6 zr zr zr zr 0 1 zr 0 0 0 0 0 rfl (by decide)

/-- C3 (confirmed): under GOLXR, a cell inside the memory window
(`now − lastActivation < cellMemory`) has next state alive whatever the
draws and neighbour count (the `continue` short-circuits everything,
including the old-age check); otherwise the survival/birth resolution gives
an alive cell next-state `1` iff its draw exceeds (threshold − survivalBias)
with threshold `0.1` for exactly 4 neighbours, `0.4` for 3 or 5, and `0.99`
for any other count, and a dead cell `1` iff its draw exceeds
`0.7 − birthBias` at exactly 4 neighbours or `0.95 − birthBias/2` at exactly
3, never otherwise.  The final conjunct ties `golxrCellNext` to the tick:
it is what `updateGridCore` writes for every in-bounds cell in GOLXR mode. -/
theorem golxr_gate_and_resolution (s : GameState) (R1 R2 : ℤ → ℤ → ℤ → ℚ)
    (r1 r2 now : ℚ) (x y z : ℤ) :
    (now - s.recentlyAdded x y z < s.cellMemory →
      golxrCellNext s r1 r2 now x y z = 1) ∧
    (s.grid x y z = 1 →
      (golxrBase s r1 x y z = 1 ↔
        r1 > (if countNeighbors s x y z = 4 then 1/10
              else if countNeighbors s x y z = 3 ∨ countNeighbors s x y z = 5 then 2/5
              else 99/100) - survivalBias s.bias)) ∧
    (s.grid x y z ≠ 1 →
      (golxrBase s r1 x y z = 1 ↔
        ((countNeighbors s x y z = 4 ∧ r1 > 7/10 - birthBias s.bias) ∨
         (countNeighbors s x y z = 3 ∧ r1 > 19/20 - birthBias s.bias / 2)))) ∧
    (s.currentRuleSet = RuleSet.GOLXR → inB s.size x y z →
      (updateGridCore s R1 R2 now).grid x y z =
        golxrCellNext s (R1 x y z) (R2 x y z) now x y z) := by
  refine ⟨?_, ?_, ?_, ?_⟩
  · intro h
    unfold golxrCellNext
    rw [if_pos h]
  · intro halive
    unfold golxrBase
    rw [if_pos halive]
    by_cases h4 : countNeighbors s x y z = 4
    · rw [if_pos h4, if_pos h4]
      exact ite_one_zero_eq_one
    · rw [if_neg h4, if_neg h4]
      by_cases h35 : countNeighbors s x y z = 3 ∨ countNeighbors s x y z = 5
      · rw [if_pos h35, if_pos h35]
        exact ite_one_zero_eq_one
      · rw [if_neg h35, if_neg h35, ite_self]
        exact ite_one_zero_eq_one
  · intro hdead
    unfold golxrBase
    rw [if_neg hdead]
    by_cases h4 : countNeighbors s x y z = 4
    · rw [if_pos h4]
      rw [ite_one_zero_eq_one]
      constructor
      · intro hr; exact Or.inl ⟨h4, hr⟩
      · rintro (⟨_, hr⟩ | ⟨h3, _⟩)
        · exact hr
        · exact absurd (h4 ▸ h3) (by decide)
    · rw [if_neg h4]
      by_cases h3 : countNeighbors s x y z = 3
      · rw [if_pos h3]
        rw [ite_one_zero_eq_one]
        constructor
        · intro hr; exact Or.inr ⟨h3, hr⟩
        · rintro (⟨h4x, _⟩ | ⟨_, hr⟩)
          · exact absurd h4x h4
          · exact hr
      · rw [if_neg h3]
        constructor
        · intro h; exact absurd h (by decide)
        · rintro (⟨h4x, _⟩ | ⟨h3x, _⟩)
          · exact absurd h4x h4
          · exact absurd h3x h3
  · intro hrule hin
    show (if inB s.size x y z then _ else _) = _
    rw [if_pos hin]
    unfold cellNext
    rw [if_neg (by rw [hrule]; exact nofun), if_neg (by rw [hrule]; exact nofun)]

/-- C3 witness: the four conjuncts instantiated at concrete 1³ states — a
memory-gated cell at `now = 1000`, an alive cell with draw 1, a dead cell
with draw 1, and the tick link at `base1`. -/
theorem golxr_gate_and_resolution_witness :
    golxrCellNext cs3g 0 1 1000 0 0 0 = 1 ∧
    (golxrBase cs3a 1 0 0 0 = 1 ↔
      (1 : ℚ) > (if countNeighbors cs3a 0 0 0 = 4 then 1/10
            else if countNeighbors cs3a 0 0 0 = 3 ∨ countNeighbors cs3a 0 0 0 = 5 then 2/5
            else 99/100) - survivalBias cs3a.bias) ∧
    (golxrBase base1 1 0 0 0 = 1 ↔
      ((countNeighbors base1 0 0 0 = 4 ∧ (1 : ℚ) > 7/10 - birthBias base1.bias) ∨
       (countNeighbors base1 0 0 0 = 3 ∧ (1 : ℚ) > 19/20 - birthBias base1.bias / 2))) ∧
    (updateGridCore base1 zr zr 0).grid 0 0 0 =
      golxrCellNext base1 (zr 0 0 0) (zr 0 0 0) 0 0 0 0 :=
  ⟨(golxr_gate_and_resolution cs3g zr zr 0 1 1000 0 0 0).1 (by norm_num [cs3g, base1]),
   (golxr_gate_and_resolution cs3a zr zr 1 0 0 0 0 0).2.1 rfl,
   (golxr_gate_and_resolution base1 zr zr 1 0 0 0 0 0).2.2.1 (by decide),
   (golxr_gate_and_resolution base1 zr zr (zr 0 0 0) (zr 0 0 0) 0 0 0 0).2.2.2 rfl (by decide)⟩

/-- C4 counterexample: at `cs3g` with `now = 1000` the cell is inside the
memory window, its old-age draw `1` exceeds `0.95 + survivalBias`, yet its
next state is `1` — the cell is alive in the next buffer and was *not*
subjected to the killing check, refuting the claim that the check applies
regardless of how the cell arrived at alive. -/
theorem golxr_attrition_counterexample :
    1000 - cs3g.recentlyAdded 0 0 0 < cs3g.cellMemory ∧
    (1 : ℚ) > 19/20 + survivalBias cs3g.bias ∧
    golxrCellNext cs3g 0 1 1000 0 0 0 = 1 := by
  refine ⟨by norm_num [cs3g, base1], ?_, ?_⟩
  · show (1 : ℚ) > 19/20 + survivalBias (1/2)
    norm_num [survivalBias, biasMultiplier]
  · unfold golxrCellNext
    rw [if_pos (by norm_num [cs3g, base1])]

/-- C4 (corrected): the old-age attrition pass applies exactly to the cells
whose survival/birth resolution produced alive — outside the memory window
`golxrCellNext` is the attrition of `golxrBase` — but a cell forced alive by
the age gate bypasses the attrition entirely: its next state is `1` for every
old-age draw. -/
theorem golxr_attrition_scope (s : GameState) (r1 r2 now : ℚ) (x y z : ℤ) :
    (¬ (now - s.recentlyAdded x y z < s.cellMemory) →
      golxrCellNext s r1 r2 now x y z =
        if golxrBase s r1 x y z = 1 ∧ r2 > 19/20 + survivalBias s.bias then 0
        else golxrBase s r1 x y z) ∧
    (now - s.recentlyAdded x y z < s.cellMemory →
      ∀ rA : ℚ, golxrCellNext s r1 rA now x y z = 1) := by
  constructor
  · intro h
    unfold golxrCellNext
    rw [if_neg h]
  · intro h rA
    unfold golxrCellNext
    rw [if_pos h]

/-- C4 witness: the attrition shape at `base1` (cell outside the memory
window) and the gate bypass at `cs3g`. -/
theorem golxr_attrition_scope_witness :
    (golxrCellNext base1 0 1 1000 0 0 0 =
      if golxrBase base1 0 0 0 0 = 1 ∧ (1 : ℚ) > 19/20 + survivalBias base1.bias then 0
      else golxrBase base1 0 0 0 0) ∧
    golxrCellNext cs3g 0 1 1000 0 0 0 = 1 :=
  ⟨(golxr_attrition_scope base1 0 1 1000 0 0 0).1 (by norm_num [base1]),
   (golxr_attrition_scope cs3g 0 0 1000 0 0 0).2 (by norm_num [cs3g, base1]) 1⟩

/-- C7 (confirmed): neighbour counting (in both projections) is insensitive
to the grid's values outside `[0, N)³` — replacing them arbitrarily changes
no count, so out-of-bounds positions contribute nothing and are never
dereferenced — and for every out-of-bounds coordinate a tick writes nothing:
the transition leaves the scratch-buffer value, the full `updateGrid`
(including reseeding) does too, and the spawner scan leaves grid and age
untouched. -/
theorem boundary_exclusion (s : GameState) (g' : ℤ → ℤ → ℤ → ℕ)
    (r1 r2 : ℤ → ℤ → ℤ → ℚ) (nr : ℕ → Fin 3 → ℚ) (sr : ℤ → ℤ → ℤ → ℚ)
    (now : ℚ) (x y z : ℤ)
    (hagree : ∀ a b c, inB s.size a b c → g' a b c = s.grid a b c) :
    countNeighbors { s with grid := g' } x y z = countNeighbors s x y z ∧
    countNeighbors25D { s with grid := g' } x y z = countNeighbors25D s x y z ∧
    (¬ inB s.size x y z →
      (updateGridCore s r1 r2 now).grid x y z = s.nextGrid x y z ∧
      (updateGrid s r1 r2 nr sr now).grid x y z = s.nextGrid x y z ∧
      (addCellsNearSpawner s now).grid x y z = s.grid x y z ∧
      (addCellsNearSpawner s now).recentlyAdded x y z = s.recentlyAdded x y z) := by
  refine ⟨?_, ?_, ?_⟩
  · unfold countNeighbors
    congr 1
    apply List.map_congr_left
    intro d _
    show (if inB s.size (x + d.1) (y + d.2.1) (z + d.2.2) then
        g' (x + d.1) (y + d.2.1) (z + d.2.2) else 0) = _
    by_cases h : inB s.size (x + d.1) (y + d.2.1) (z + d.2.2)
    · rw [if_pos h, if_pos h, hagree _ _ _ h]
    · rw [if_neg h, if_neg h]
  · unfold countNeighbors25D
    rw [Prod.mk.injEq]
    constructor
    · congr 1
      apply List.map_congr_left
      intro d _
      show (if d.2.2 = 0 ∧ inB s.size (x + d.1) (y + d.2.1) (z + d.2.2) ∧
          g' (x + d.1) (y + d.2.1) (z + d.2.2) = 1 then 1 else 0) = _
      by_cases h : inB s.size (x + d.1) (y + d.2.1) (z + d.2.2)
      · rw [hagree _ _ _ h]
      · rw [if_neg (fun hc => h hc.2.1), if_neg (fun hc => h hc.2.1)]
    · congr 1
      apply List.map_congr_left
      intro d _
      show (if d.2.2 ≠ 0 ∧ inB s.size (x + d.1) (y + d.2.1) (z + d.2.2) ∧
          g' (x + d.1) (y + d.2.1) (z + d.2.2) = 1 then 1 else 0) = _
      by_cases h : inB s.size (x + d.1) (y + d.2.1) (z + d.2.2)
      · rw [hagree _ _ _ h]
      · rw [if_neg (fun hc => h hc.2.1), if_neg (fun hc => h hc.2.1)]
  · intro hout
    have hcore : (updateGridCore s r1 r2 now).grid x y z = s.nextGrid x y z := by
      show (if inB s.size x y z then _ else _) = _
      rw [if_neg hout]
    have hsp : (spawnCapture s now).grid x y z = s.grid x y z ∧
        (spawnCapture s now).recentlyAdded x y z = s.recentlyAdded x y z := by
      constructor <;>
        · show (if inB s.size x y z ∧ _ ∧ _ then _ else _) = _
          rw [if_neg (fun hc => hout hc.1)]
    refine ⟨hcore, ?_, ?_, ?_⟩
    · rw [updateGrid]
      split
      · rw [updateInstancedMesh_grid,
          (seedInitialPattern_outside (updateInstancedMesh (updateGridCore s r1 r2 now))
            nr sr now hout).1,
          updateInstancedMesh_grid]
        exact hcore
      · rw [updateInstancedMesh_grid]
        exact hcore
    · rw [addCellsNearSpawner]
      split
      · rw [updateInstancedMesh_grid]; exact hsp.1
      · exact hsp.1
    · rw [addCellsNearSpawner]
      split
      · rw [updateInstancedMesh_recentlyAdded]; exact hsp.2
      · exact hsp.2

/-- C7 witness: the boundary-exclusion facts at `base1` and the
out-of-bounds coordinate `(-1, 0, 0)`. -/
theorem boundary_exclusion_witness :
    countNeighbors { base1 with grid := base1.grid } (-1) 0 0 =
      countNeighbors base1 (-1) 0 0 ∧
    countNeighbors25D { base1 with grid := base1.grid } (-1) 0 0 =
      countNeighbors25D base1 (-1) 0 0 ∧
    ((updateGridCore base1 zr zr 0).grid (-1) 0 0 = base1.nextGrid (-1) 0 0 ∧
      (updateGrid base1 zr zr zn zr 0).grid (-1) 0 0 = base1.nextGrid (-1) 0 0 ∧
      (addCellsNearSpawner base1 0).grid (-1) 0 0 = base1.grid (-1) 0 0 ∧
      (addCellsNearSpawner base1 0).recentlyAdded (-1) 0 0 =
        base1.recentlyAdded (-1) 0 0) :=
  have h := boundary_exclusion base1 base1.grid zr zr zn zr 0 (-1) 0 0
    (fun _ _ _ _ => rfl)
  ⟨h.1, h.2.1, h.2.2 (by decide)⟩

/-- Pointwise description of the spawner capture sweep. -/
theorem spawnCapture_grid_apply (s : GameState) (now : ℚ) (x y z : ℤ) :
    (spawnCapture s now).grid x y z =
      if inB s.size x y z ∧ s.grid x y z = 0 ∧ nearSpawner s x y z then 1
      else s.grid x y z := rfl

theorem spawnCapture_recentlyAdded_apply (s : GameState) (now : ℚ) (x y z : ℤ) :
    (spawnCapture s now).recentlyAdded x y z =
      if inB s.size x y z ∧ s.grid x y z = 0 ∧ nearSpawner s x y z then now
      else s.recentlyAdded x y z := rfl

/-- Pointwise description of `addCellsNearSpawner` (the mesh refresh changes
neither grid nor age). -/
theorem addCellsNearSpawner_apply (s : GameState) (now : ℚ) (x y z : ℤ) :
    (addCellsNearSpawner s now).grid x y z =
      (if inB s.size x y z ∧ s.grid x y z = 0 ∧ nearSpawner s x y z then 1
        else s.grid x y z) ∧
    (addCellsNearSpawner s now).recentlyAdded x y z =
      (if inB s.size x y z ∧ s.grid x y z = 0 ∧ nearSpawner s x y z then now
        else s.recentlyAdded x y z) := by
  rw [addCellsNearSpawner]
  split
  · rw [updateInstancedMesh_grid, updateInstancedMesh_recentlyAdded]
    exact ⟨spawnCapture_grid_apply s now x y z, spawnCapture_recentlyAdded_apply s now x y z⟩
  · exact ⟨spawnCapture_grid_apply s now x y z, spawnCapture_recentlyAdded_apply s now x y z⟩

/-- C10 (confirmed): the spawner scan only ever changes cells that are
currently dead — an alive cell keeps its grid state and age timestamp even
inside the capture radius, a cell outside the radius is untouched, and the
scan never kills: a cell dead afterwards was dead before. -/
theorem spawner_only_dead (s : GameState) (now : ℚ) (x y z : ℤ) :
    (s.grid x y z = 1 →
      (addCellsNearSpawner s now).grid x y z = s.grid x y z ∧
      (addCellsNearSpawner s now).recentlyAdded x y z = s.recentlyAdded x y z) ∧
    (¬ nearSpawner s x y z →
      (addCellsNearSpawner s now).grid x y z = s.grid x y z ∧
      (addCellsNearSpawner s now).recentlyAdded x y z = s.recentlyAdded x y z) ∧
    ((addCellsNearSpawner s now).grid x y z = 0 → s.grid x y z = 0) := by
  have hcap := addCellsNearSpawner_apply s now x y z
  refine ⟨?_, ?_, ?_⟩
  · intro halive
    have hno : ¬ (inB s.size x y z ∧ s.grid x y z = 0 ∧ nearSpawner s x y z) := by
      rintro ⟨_, h0, _⟩
      rw [halive] at h0
      exact one_ne_zero h0
    rw [hcap.1, hcap.2, if_neg hno, if_neg hno]
    exact ⟨rfl, rfl⟩
  · intro hfar
    have hno : ¬ (inB s.size x y z ∧ s.grid x y z = 0 ∧ nearSpawner s x y z) :=
      fun hc => hfar hc.2.2
    rw [hcap.1, hcap.2, if_neg hno, if_neg hno]
    exact ⟨rfl, rfl⟩
  · intro hafter
    rw [hcap.1] at hafter
    by_cases hc : inB s.size x y z ∧ s.grid x y z = 0 ∧ nearSpawner s x y z
    · rw [if_pos hc] at hafter
      exact absurd hafter one_ne_zero
    · rw [if_neg hc] at hafter
      exact hafter

/-- C10 witness: the three conjuncts at `cs3a` (its cell is alive, and the
spawner at the origin with radius `0.01` does not reach it... the far and
never-kills conjuncts are taken at `base1`'s dead cell with the spawner moved
out of reach). -/
theorem spawner_only_dead_witness :
    ((addCellsNearSpawner cs3a 5).grid 0 0 0 = cs3a.grid 0 0 0 ∧
      (addCellsNearSpawner cs3a 5).recentlyAdded 0 0 0 = cs3a.recentlyAdded 0 0 0) ∧
    ((addCellsNearSpawner { base1 with spawnerPosition := (1, 0, 0) } 5).grid 0 0 0 =
        { base1 with spawnerPosition := (1, 0, 0) }.grid 0 0 0 ∧
      (addCellsNearSpawner { base1 with spawnerPosition := (1, 0, 0) } 5).recentlyAdded 0 0 0 =
        { base1 with spawnerPosition := (1, 0, 0) }.recentlyAdded 0 0 0) ∧
    ((addCellsNearSpawner base1 5).grid 0 0 0 = 0 → base1.grid 0 0 0 = 0) :=
  ⟨(spawner_only_dead cs3a 5 0 0 0).1 rfl,
   (spawner_only_dead { base1 with spawnerPosition := (1, 0, 0) } 5 0 0 0).2.1
     (by
       rintro ⟨-, habs⟩
       norm_num [sqDist, cellWorldPos, base1] at habs),
   (spawner_only_dead base1 5 0 0 0).2.2⟩

/-- An alive cell's opacity step is exactly `min 1 (op + fade)` (for opacity
at most 1 and positive fade). -/
theorem stepOpacity_alive_eq {f op : ℚ} (h1 : op ≤ 1) (hf : 0 < f) :
    stepOpacity true f op = min 1 (op + f) := by
  unfold stepOpacity
  rw [if_pos rfl]
  by_cases h : op < 1
  · rw [if_pos h]
  · rw [if_neg h]
    have hop : op = 1 := le_antisymm h1 (not_lt.mp h)
    rw [hop, min_eq_left (by linarith)]

/-- A dead cell's opacity step is exactly `max 0 (op - fade)` (for
nonnegative opacity and positive fade). -/
theorem stepOpacity_dead_eq {f op : ℚ} (h0 : 0 ≤ op) (hf : 0 < f) :
    stepOpacity false f op = max 0 (op - f) := by
  unfold stepOpacity
  rw [if_neg (by exact nofun)]
  by_cases h : 0 < op
  · rw [if_pos h]
  · rw [if_neg h]
    have hop : op = 0 := le_antisymm (not_lt.mp h) h0
    rw [hop, max_eq_left (by linarith)]

/-- Closed form of the alive-side opacity recursion: after `n` frames the
value is `min 1 (op + n·fade)`. -/
theorem stepOpacity_alive_iterate {f : ℚ} (hf : 0 < f) {op : ℚ}
    (h1 : op ≤ 1) :
    ∀ n : ℕ, (fun o => stepOpacity true f o)^[n] op = min 1 (op + n * f) := by
  intro n
  induction n with
  | zero =>
    rw [Function.iterate_zero, id_eq]
    push_cast
    rw [zero_mul, add_zero, min_eq_right h1]
  | succ n ih =>
    rw [Function.iterate_succ_apply', ih]
    by_cases h : 1 ≤ op + n * f
    · rw [min_eq_left h, stepOpacity_alive_eq le_rfl hf,
        min_eq_left (by linarith), min_eq_left (by push_cast; nlinarith)]
    · rw [min_eq_right (by linarith), stepOpacity_alive_eq (by linarith) hf]
      congr 1
      push_cast
      ring

/-- The fields `updateCellOpacities` never touches are stable under
iteration. -/
theorem updateCellOpacities_iterate_fields (s : GameState) : ∀ n : ℕ,
    (updateCellOpacities^[n] s).size = s.size ∧
      (updateCellOpacities^[n] s).grid = s.grid ∧
      (updateCellOpacities^[n] s).fadeSpeed = s.fadeSpeed := by
  intro n
  induction n with
  | zero => exact ⟨rfl, rfl, rfl⟩
  | succ n ih =>
    rw [Function.iterate_succ_apply']
    have hf := updateCellOpacities_fields (updateCellOpacities^[n] s)
    exact ⟨hf.1.trans ih.1, hf.2.1.trans ih.2.1, hf.2.2.2.2.1.trans ih.2.2⟩

/-- Iterating the frame update acts on one in-bounds cell exactly as the
scalar `stepOpacity` recursion. -/
theorem updateCellOpacities_iterate_apply (s : GameState) (x y z : ℤ)
    (hin : inB s.size x y z) : ∀ n : ℕ,
    (updateCellOpacities^[n] s).cellOpacity x y z =
      (fun o => stepOpacity (decide (s.grid x y z = 1)) s.fadeSpeed o)^[n]
        (s.cellOpacity x y z) := by
  intro n
  induction n with
  | zero => rfl
  | succ n ih =>
    rw [Function.iterate_succ_apply', Function.iterate_succ_apply',
      updateCellOpacities_opacity]
    have hfld := updateCellOpacities_iterate_fields s n
    rw [hfld.1, hfld.2.1, hfld.2.2, if_pos hin, ih]

/-- C8 (confirmed): for an in-bounds cell with opacity in `[0, 1]` and
positive fade speed, one frame keeps opacity in `[0, 1]`; while alive the
step is exactly `min 1 (op + fadeSpeed)` and is non-decreasing; while dead it
is exactly `max 0 (op − fadeSpeed)` and is non-increasing; and a cell alive
throughout reaches opacity exactly `1` within `⌈1 / fadeSpeed⌉` consecutive
frames. -/
theorem opacity_fade (s : GameState) (x y z : ℤ) (hin : inB s.size x y z)
    (h0 : 0 ≤ s.cellOpacity x y z) (h1 : s.cellOpacity x y z ≤ 1)
    (hf : 0 < s.fadeSpeed) :
    (0 ≤ (updateCellOpacities s).cellOpacity x y z ∧
      (updateCellOpacities s).cellOpacity x y z ≤ 1) ∧
    (s.grid x y z = 1 →
      (updateCellOpacities s).cellOpacity x y z =
        min 1 (s.cellOpacity x y z + s.fadeSpeed) ∧
      s.cellOpacity x y z ≤ (updateCellOpacities s).cellOpacity x y z) ∧
    (s.grid x y z ≠ 1 →
      (updateCellOpacities s).cellOpacity x y z =
        max 0 (s.cellOpacity x y z - s.fadeSpeed) ∧
      (updateCellOpacities s).cellOpacity x y z ≤ s.cellOpacity x y z) ∧
    (s.grid x y z = 1 →
      (updateCellOpacities^[⌈1 / s.fadeSpeed⌉₊] s).cellOpacity x y z = 1) := by
  have hstep := updateCellOpacities_opacity s x y z
  rw [if_pos hin] at hstep
  refine ⟨?_, ?_, ?_, ?_⟩
  · by_cases ha : s.grid x y z = 1
    · rw [hstep, decide_eq_true ha, stepOpacity_alive_eq h1 hf]
      exact ⟨le_min (by norm_num) (by linarith), min_le_left _ _⟩
    · rw [hstep, decide_eq_false ha, stepOpacity_dead_eq h0 hf]
      exact ⟨le_max_left _ _, max_le (by norm_num) (by linarith)⟩
  · intro ha
    rw [hstep, decide_eq_true ha, stepOpacity_alive_eq h1 hf]
    exact ⟨rfl, le_min h1 (by linarith)⟩
  · intro ha
    rw [hstep, decide_eq_false ha, stepOpacity_dead_eq h0 hf]
    exact ⟨rfl, max_le h0 (by linarith)⟩
  · intro ha
    rw [updateCellOpacities_iterate_apply s x y z hin, decide_eq_true ha,
      stepOpacity_alive_iterate hf h1]
    have hceil : (1 : ℚ) ≤ (⌈1 / s.fadeSpeed⌉₊ : ℚ) * s.fadeSpeed := by
      have hc := Nat.le_ceil (1 / s.fadeSpeed)
      have := mul_le_mul_of_nonneg_right hc hf.le
      rwa [div_mul_cancel₀ 1 (ne_of_gt hf)] at this
    exact min_eq_left (by linarith)

/-- C8 witness: the fade facts at `cs3a`'s alive cell (opacity 0, fade speed
1/20, so `⌈1/fadeSpeed⌉ = 20` frames reach opacity 1). -/
theorem opacity_fade_witness :
    (0 ≤ (updateCellOpacities cs3a).cellOpacity 0 0 0 ∧
      (updateCellOpacities cs3a).cellOpacity 0 0 0 ≤ 1) ∧
    ((updateCellOpacities cs3a).cellOpacity 0 0 0 =
        min 1 (cs3a.cellOpacity 0 0 0 + cs3a.fadeSpeed) ∧
      cs3a.cellOpacity 0 0 0 ≤ (updateCellOpacities cs3a).cellOpacity 0 0 0) ∧
    (updateCellOpacities^[⌈1 / cs3a.fadeSpeed⌉₊] cs3a).cellOpacity 0 0 0 = 1 :=
  have h := opacity_fade cs3a 0 0 0 (by decide) (by norm_num [cs3a, base1])
    (by norm_num [cs3a, base1]) (by norm_num [cs3a, base1])
  ⟨h.1, h.2.1 rfl, h.2.2.2 rfl⟩

/-- C1 counterexample: at `c1s` (LIFE_5766, all cells dead, one cell still
fading out with opacity 1) a complete logic tick ends with zero live cells —
the transition leaves everything dead and *no reseed fires*, because the
extinction check tests the opacity-derived `activeInstances` (here 1), not
the live-cell count.  This refutes the claim that a tick with zero live cells
always ends with a non-empty grid. -/
theorem extinction_reseed_counterexample :
    liveCount (updateGridCore c1s zr zr 0) = 0 ∧
    liveCount (updateGrid c1s zr zr zn zr 0) = 0 := by
  have hgrid0 : ∀ a b c : ℤ, c1s.grid a b c = 0 := fun _ _ _ => rfl
  have hdead : ∀ p ∈ cellList (updateGridCore c1s zr zr 0).size,
      (updateGridCore c1s zr zr 0).grid p.1 p.2.1 p.2.2 ≠ 1 := by
    intro p hp
    have hin : inB c1s.size p.1 p.2.1 p.2.2 := mem_cellList.mp hp
    show ¬ ((if inB c1s.size p.1 p.2.1 p.2.2 then _ else _) = 1)
    rw [if_pos hin]
    unfold cellNext
    rw [if_pos (show c1s.currentRuleSet = RuleSet.LIFE_5766 from rfl),
      life5766Next_eq, hgrid0 p.1 p.2.1 p.2.2,
      countNeighbors_eq_zero hgrid0 p.1 p.2.1 p.2.2]
    norm_num
  have hzero : liveCount (updateGridCore c1s zr zr 0) = 0 :=
    liveCount_eq_zero_iff.mpr hdead
  have hrend : countRenderable (updateGridCore c1s zr zr 0) ≠ 0 := by
    refine countRenderable_ne_zero (p := ((10 : ℤ), (10 : ℤ), (10 : ℤ)))
      (mem_cellList.mpr (by decide)) ?_
    rw [updateGridCore_cellOpacity]
    norm_num [c1s]
  have hnot : ¬ (AUTO_RESEED_ON_EXTINCTION = true ∧
      (updateInstancedMesh (updateGridCore c1s zr zr 0)).activeInstances = 0) := by
    rintro ⟨-, h0⟩
    rw [updateInstancedMesh_activeInstances] at h0
    exact hrend h0
  refine ⟨hzero, ?_⟩
  rw [updateGrid, if_neg hnot, liveCount_updateInstancedMesh]
  exact hzero

/-- C1 (corrected): the extinction trigger is the renderable-instance count
(cells with opacity above 0.01) computed right after the transition, not the
live-cell count.  Whenever that count is zero, the tick re-runs the
rule-appropriate seeding and refreshes the instance state, and under GOLXR
(with a non-degenerate lattice) the reseeded grid is non-empty, its centre
cell being seeded unconditionally. -/
theorem extinction_reseed_on_zero_renderables (s : GameState)
    (r1 r2 : ℤ → ℤ → ℤ → ℚ) (nr : ℕ → Fin 3 → ℚ) (sr : ℤ → ℤ → ℤ → ℚ) (now : ℚ)
    (h : countRenderable (updateGridCore s r1 r2 now) = 0) :
    updateGrid s r1 r2 nr sr now =
      updateInstancedMesh (seedInitialPattern
        (updateInstancedMesh (updateGridCore s r1 r2 now)) nr sr now) ∧
    (s.currentRuleSet = RuleSet.GOLXR → 1 ≤ s.size →
      0 < liveCount (updateGrid s r1 r2 nr sr now)) := by
  have hcond : AUTO_RESEED_ON_EXTINCTION = true ∧
      (updateInstancedMesh (updateGridCore s r1 r2 now)).activeInstances = 0 :=
    ⟨rfl, by rw [updateInstancedMesh_activeInstances]; exact h⟩
  have heq : updateGrid s r1 r2 nr sr now =
      updateInstancedMesh (seedInitialPattern
        (updateInstancedMesh (updateGridCore s r1 r2 now)) nr sr now) := by
    rw [updateGrid, if_pos hcond]
  refine ⟨heq, ?_⟩
  intro hrule hsize
  rw [heq, liveCount_updateInstancedMesh]
  have hrule2 : (updateInstancedMesh (updateGridCore s r1 r2 now)).currentRuleSet =
      RuleSet.GOLXR := by
    rw [updateInstancedMesh_currentRuleSet, updateGridCore_currentRuleSet]
    exact hrule
  have hsize2 : 1 ≤ (updateInstancedMesh (updateGridCore s r1 r2 now)).size := by
    rw [updateInstancedMesh_size, updateGridCore_size]
    exact hsize
  have hcentre := golxr_seed_center
    (updateInstancedMesh (updateGridCore s r1 r2 now)) nr sr now hrule2 hsize2
  apply Nat.pos_of_ne_zero
  apply liveCount_ne_zero
    (p := ((((updateInstancedMesh (updateGridCore s r1 r2 now)).size / 2 : ℕ) : ℤ),
      (((updateInstancedMesh (updateGridCore s r1 r2 now)).size / 2 : ℕ) : ℤ),
      (((updateInstancedMesh (updateGridCore s r1 r2 now)).size / 2 : ℕ) : ℤ)))
  · apply mem_cellList.mpr
    dsimp only
    rw [seedInitialPattern_size]
    unfold inB
    omega
  · exact hcentre

/-- C1 witness: at `base1` (GOLXR, everything dead and invisible, outside the
memory window at `now = 1000`) the renderable count after the transition is
zero, the reseed fires, and the resulting grid is non-empty. -/
theorem extinction_reseed_on_zero_renderables_witness :
    updateGrid base1 zr zr zn zr 1000 =
      updateInstancedMesh (seedInitialPattern
        (updateInstancedMesh (updateGridCore base1 zr zr 1000)) zn zr 1000) ∧
    0 < liveCount (updateGrid base1 zr zr zn zr 1000) :=
  have h := extinction_reseed_on_zero_renderables base1 zr zr zn zr 1000
    (countRenderable_eq_zero (fun _ _ _ => rfl))
  ⟨h.1, h.2 rfl (by decide)⟩

/-- C2 counterexample: at `base1` (GOLXR) with `now = 50` the update interval
(66 ms, last tick at 0) has *not* elapsed, yet the call changes the Grid and
the Age map: the spawner scan runs every frame, before the tick gate, and the
dead cell at the origin lies within the capture radius of the parked
spawner. -/
theorem no_tick_frame_effect_counterexample :
    ¬ ((50 : ℚ) - base1.lastUpdate > base1.updateInterval) ∧
    base1.grid 0 0 0 = 0 ∧
    (animate base1 traj0 zr zr zn zr 50).grid 0 0 0 = 1 ∧
    (animate base1 traj0 zr zr zn zr 50).recentlyAdded 0 0 0 = 50 := by
  have hnear : nearSpawner { base1 with spawnerPosition := traj0 50 } 0 0 0 := by
    unfold nearSpawner sqDist cellWorldPos traj0
    norm_num [base1]
  have hcond : inB ({ base1 with spawnerPosition := traj0 50 } : GameState).size 0 0 0 ∧
      ({ base1 with spawnerPosition := traj0 50 } : GameState).grid 0 0 0 = 0 ∧
      nearSpawner { base1 with spawnerPosition := traj0 50 } 0 0 0 :=
    ⟨by decide, rfl, hnear⟩
  have hgate : ¬ ((50 : ℚ) - (spawnerPhase base1 traj0 50).lastUpdate >
      (spawnerPhase base1 traj0 50).updateInterval) := by
    rw [(spawnerPhase_fields base1 traj0 50).2.1,
      (spawnerPhase_fields base1 traj0 50).2.2]
    norm_num [base1]
  have htick : tickPhase (spawnerPhase base1 traj0 50) zr zr zn zr 50 =
      spawnerPhase base1 traj0 50 := by
    unfold tickPhase
    rw [if_neg hgate]
  have hfields := updateCellOpacities_fields (spawnerPhase base1 traj0 50)
  have hspawn : spawnerPhase base1 traj0 50 =
      addCellsNearSpawner { base1 with spawnerPosition := traj0 50 } 50 := by
    unfold spawnerPhase
    rw [if_pos (show base1.currentRuleSet = RuleSet.GOLXR from rfl)]
  refine ⟨by norm_num [base1], rfl, ?_, ?_⟩
  · rw [animate, htick, hfields.2.1, hspawn,
      (addCellsNearSpawner_apply { base1 with spawnerPosition := traj0 50 } 50 0 0 0).1,
      if_pos hcond]
  · rw [animate, htick, hfields.2.2.2.1, hspawn,
      (addCellsNearSpawner_apply { base1 with spawnerPosition := traj0 50 } 50 0 0 0).2,
      if_pos hcond]

/-- C2 (corrected): on a call where the update interval has not elapsed, the
gated logic tick does not run — the scratch buffer and `lastUpdate` are
untouched, and under LIFE_5766/LIFE_25D the Grid and Age map are unchanged
(only the opacity update runs) — but under GOLXR the spawner capture scan
still runs on every call, before the tick gate, and is exactly what such a
call does to Grid and Age. -/
theorem no_tick_frame_effect (s : GameState) (traj : ℚ → ℚ × ℚ × ℚ)
    (r1 r2 : ℤ → ℤ → ℤ → ℚ) (nr : ℕ → Fin 3 → ℚ) (sr : ℤ → ℤ → ℤ → ℚ) (now : ℚ)
    (hno : ¬ (now - s.lastUpdate > s.updateInterval)) :
    (animate s traj r1 r2 nr sr now).grid = (spawnerPhase s traj now).grid ∧
    (animate s traj r1 r2 nr sr now).recentlyAdded =
      (spawnerPhase s traj now).recentlyAdded ∧
    (animate s traj r1 r2 nr sr now).nextGrid = s.nextGrid ∧
    (animate s traj r1 r2 nr sr now).lastUpdate = s.lastUpdate ∧
    (s.currentRuleSet ≠ RuleSet.GOLXR →
      (animate s traj r1 r2 nr sr now).grid = s.grid ∧
      (animate s traj r1 r2 nr sr now).recentlyAdded = s.recentlyAdded) := by
  have hsp := spawnerPhase_fields s traj now
  have hgate : ¬ (now - (spawnerPhase s traj now).lastUpdate >
      (spawnerPhase s traj now).updateInterval) := by
    rw [hsp.2.1, hsp.2.2]
    exact hno
  have htick : tickPhase (spawnerPhase s traj now) r1 r2 nr sr now =
      spawnerPhase s traj now := by
    unfold tickPhase
    rw [if_neg hgate]
  have hop := updateCellOpacities_fields (spawnerPhase s traj now)
  rw [animate, htick]
  refine ⟨hop.2.1, hop.2.2.2.1, hop.2.2.1.trans hsp.1,
    hop.2.2.2.2.2.1.trans hsp.2.1, ?_⟩
  intro hr
  have hid : spawnerPhase s traj now = s := by
    unfold spawnerPhase
    rw [if_neg hr]
  rw [hid]
  exact ⟨(updateCellOpacities_fields s).2.1, (updateCellOpacities_fields s).2.2.2.1⟩

/-- C2 witness: the no-tick description applied at the LIFE_5766 state `cs5`
with `now = 50` (interval not elapsed), where the call changes neither Grid
nor Age. -/
theorem no_tick_frame_effect_witness :
    (animate cs5 traj0 zr zr zn zr 50).grid = (spawnerPhase cs5 traj0 50).grid ∧
    (animate cs5 traj0 zr zr zn zr 50).recentlyAdded =
      (spawnerPhase cs5 traj0 50).recentlyAdded ∧
    (animate cs5 traj0 zr zr zn zr 50).nextGrid = cs5.nextGrid ∧
    (animate cs5 traj0 zr zr zn zr 50).lastUpdate = cs5.lastUpdate ∧
    (animate cs5 traj0 zr zr zn zr 50).grid = cs5.grid ∧
    (animate cs5 traj0 zr zr zn zr 50).recentlyAdded = cs5.recentlyAdded :=
  have h := no_tick_frame_effect cs5 traj0 zr zr zn zr 50 (by norm_num [cs5, base1])
  ⟨h.1, h.2.1, h.2.2.1, h.2.2.2.1, (h.2.2.2.2 (by decide)).1, (h.2.2.2.2 (by decide)).2⟩

/-- C9 counterexample: initialising with lattice size 0 is *not* rejected —
`init` contains no validation and no error path (the embedding `initModel` is
a total function into `GameState`); at size 0 and concrete oracles it
completes and silently yields an empty simulation: zero live cells and zero
renderable instances. -/
theorem init_no_validation_counterexample :
    liveCount (initModel 0 RuleSet.GOLXR zn zr 0) = 0 ∧
    countRenderable (initModel 0 RuleSet.GOLXR zn zr 0) = 0 := by
  have hsize : (initModel 0 RuleSet.GOLXR zn zr 0).size = 0 := by
    unfold initModel
    rw [updateInstancedMesh_size, seedInitialPattern_size]
    rfl
  constructor
  · unfold liveCount
    rw [hsize]
    rfl
  · unfold countRenderable
    rw [hsize]
    rfl

/-- C9 (corrected): construction performs no validation of a degenerate
configuration — for every rule set, oracle and clock, initialisation at
lattice size 0 completes normally (there is no error channel in `init` at
all) and produces a silently empty simulation: zero live cells and zero
renderable instances.  (In the source the size is in fact the fixed constant
20, so the degenerate case is unreachable rather than rejected.) -/
theorem init_size_zero_empty (rule : RuleSet) (nr : ℕ → Fin 3 → ℚ)
    (sr : ℤ → ℤ → ℤ → ℚ) (now : ℚ) :
    liveCount (initModel 0 rule nr sr now) = 0 ∧
    countRenderable (initModel 0 rule nr sr now) = 0 := by
  have hsize : (initModel 0 rule nr sr now).size = 0 := by
    unfold initModel
    rw [updateInstancedMesh_size, seedInitialPattern_size]
    rfl
  constructor
  · unfold liveCount
    rw [hsize]
    rfl
  · unfold countRenderable
    rw [hsize]
    rfl

end ThreeDeno
